import Mathlib

/-
Verification of the ProofGate Eliza plugin's validation orchestration core.

The embedding below translates the TypeScript sources:
  * src/index.ts           — class ProofGatePlugin (constructor, validateTransaction,
                             the PROOFGATE_VALIDATE action handler);
  * src/actions/validate.ts — validateTransactionAction.handler;
  * the environment schema (zod) for the credential field;
  * the legacy axios-based plugin variant (which recomputes `safe`).

JavaScript dynamic behaviour is embedded explicitly: a JSON body's fields are
`Option`s (a missing field is `undefined`), truthiness of strings treats the
empty string as falsy, and `undefined` interpolated into a template string
prints as "undefined".
-/

namespace ProofGate

/-- Truthiness of a possibly-absent JavaScript string: `undefined` and the
empty string are falsy, everything else truthy. -/
def jsTruthyStr : Option String → Bool
  | some s => !(s == "")
  | none => false

/-- A possibly-absent string as interpolated into a template literal:
`undefined` prints as the string "undefined". -/
def jsStr : Option String → String
  | some s => s
  | none => "undefined"

/-- Truthiness of a possibly-absent JavaScript boolean: `undefined` is falsy. -/
def jsTruthyBool : Option Bool → Bool
  | some b => b
  | none => false

/-- The JSON body of a success response exactly as the code receives it from
`response.json()`. The TypeScript cast `as ValidationResult` performs no
runtime check, so every field may be absent (`undefined`) and `safe` may
carry any boolean the upstream chose to send. -/
structure ValidationResult where
  validationId : Option String
  result : Option String
  reason : Option String
  evidenceUri : Option String
  safe : Option Bool
  authenticated : Option Bool
  tier : Option String
deriving DecidableEq, Repr

/-- The code's test `result.safe` on a wire body: truthiness of the `safe`
field the upstream sent (absent means falsy). -/
def ValidationResult.jsSafe (b : ValidationResult) : Bool :=
  jsTruthyBool b.safe

/-- The parsed JSON body of a non-success response: an object whose `error`
and `message` fields may each be absent. -/
structure ErrorBody where
  error : Option String
  message : Option String
deriving DecidableEq, Repr

/-- The outcome of the single `fetch` to `POST {apiUrl}/validate`, from the
calling code's point of view: the promise rejected (transport failure),
the response arrived with `ok = false` (carrying a perhaps-unparseable
error body), or it arrived with `ok = true` and a parsed JSON body. -/
inductive FetchOutcome where
  | transportFailure (msg : String)
  | httpNotOk (status : Nat) (body : Option ErrorBody)
  | okBody (body : ValidationResult)
deriving DecidableEq, Repr

/-- First truthy of a possibly-absent string, per JavaScript `||`:
`undefined` and `""` both fall through. -/
def jsOrStr : Option String → Option String
  | some s => if s == "" then none else some s
  | none => none

/-- src/index.ts line 147-148 (and identically src/actions/validate.ts line
83-84): on `!response.ok` the code runs
`const error = await response.json().catch(() => ({ error: 'Unknown error' }))`
and throws `new Error(error.error || error.message || `HTTP ${status}`)`.
A body that fails to parse is replaced by `{ error: 'Unknown error' }`. -/
def errMessage (status : Nat) (parsed : Option ErrorBody) : String :=
  let errorData : ErrorBody := parsed.getD { error := some "Unknown error", message := none }
  match jsOrStr errorData.error with
  | some s => s
  | none =>
    match jsOrStr errorData.message with
    | some s => s
    | none => "HTTP " ++ toString status

/-- The truth-values of `this.config.autoBlock` and `this.config.debug` as
the plugin method tests them. -/
structure GateConfig where
  autoBlock : Bool
  debug : Bool
deriving DecidableEq, Repr

/-- A debug-channel record: either the `console.log` of a validation result
(validation id, result, reason, safe flag) or a `console.error` of an error
message. -/
inductive LogEntry where
  | resultLog (id res reason : String) (safe : Bool)
  | errorLog (msg : String)
deriving DecidableEq, Repr

/-- What one call of the plugin method produces: its return-or-throw outcome
(`Except.error` is a thrown `Error`'s message) together with the list of
debug-channel records it emitted. -/
structure MethodOutput where
  ret : Except String ValidationResult
  logs : List LogEntry
deriving Repr

/-- The message of the error thrown at src/index.ts line 164 when auto-block
fires: `[ProofGate] Transaction blocked: ${result.reason}`. -/
def blockedErrMsg (b : ValidationResult) : String :=
  "[ProofGate] Transaction blocked: " ++ jsStr b.reason

/-- ProofGatePlugin.validateTransaction (src/index.ts lines 126-177), as a
function of the resolved config flags and the outcome of the single fetch.
Control flow of the source: a rejected fetch or a thrown error reaches the
catch block, which logs when debug is on and rethrows; on a success body the
code logs it when debug is on, throws when `autoBlock && !result.safe`, and
otherwise returns the body unchanged (no field is validated or recomputed). -/
def validateTransaction (cfg : GateConfig) (o : FetchOutcome) : MethodOutput :=
  match o with
  | .transportFailure msg =>
    { ret := Except.error msg
      logs := if cfg.debug then [LogEntry.errorLog msg] else [] }
  | .httpNotOk status body =>
    let msg := errMessage status body
    { ret := Except.error msg
      logs := if cfg.debug then [LogEntry.errorLog msg] else [] }
  | .okBody b =>
    let rlogs :=
      if cfg.debug then
        [LogEntry.resultLog (jsStr b.validationId) (jsStr b.result) (jsStr b.reason) b.jsSafe]
      else []
    if cfg.autoBlock && !b.jsSafe then
      let msg := blockedErrMsg b
      { ret := Except.error msg
        logs := rlogs ++ (if cfg.debug then [LogEntry.errorLog msg] else []) }
    else
      { ret := Except.ok b, logs := rlogs }

/-- The `options` argument of an action handler: the transaction fields, each
possibly absent (field names `from`, `to`, `data`, `value` in the source). -/
structure TxOptions where
  fromAddr : Option String
  toAddr : Option String
  dataHex : Option String
  valueStr : Option String
deriving DecidableEq, Repr

/-- The guard `!options?.from || !options?.to || !options?.data` shared by
both action handlers (src/actions/validate.ts line 57, src/index.ts line 230). -/
def TxOptions.missingDetails (opts : TxOptions) : Bool :=
  !jsTruthyStr opts.fromAddr || !jsTruthyStr opts.toAddr || !jsTruthyStr opts.dataHex

/-- The environment configuration after the zod schema validated it
(type ProofGateEnv in the source): at this point the auto-block and debug
toggles are genuine booleans. -/
structure ProofGateEnv where
  PROOFGATE_API_KEY : String
  PROOFGATE_API_URL : String
  PROOFGATE_GUARDRAIL_ID : Option String
  PROOFGATE_CHAIN_ID : Nat
  PROOFGATE_AUTO_BLOCK : Bool
  PROOFGATE_DEBUG : Bool
deriving DecidableEq, Repr

/-- What one action-handler call produces: the boolean the handler returns
(the gate's allow/deny decision surfaced to the agent framework), the texts
passed to the callback, whether the remote service was contacted, and the
debug-channel records. -/
structure HandlerOutput where
  result : Bool
  messages : List String
  networkCalled : Bool
  logs : List LogEntry
deriving Repr

/-- Callback text of src/actions/validate.ts lines 57-64 and the mojibake
twin at src/index.ts lines 230-237. -/
def missingDetailsMsg : String :=
  "⚠️ Transaction details required (from, to, data) for ProofGate validation."

/-- Callback text for the approved branch, src/actions/validate.ts lines 100-105. -/
def approvedMsg (b : ValidationResult) : String :=
  "✅ **Transaction Approved**\n\n" ++
    "**Reason:** " ++ jsStr b.reason ++ "\n" ++
    "**Validation ID:** `" ++ jsStr b.validationId ++ "`\n" ++
    "**Evidence:** [View](https://proofgate.xyz/evidence/" ++ jsStr b.validationId ++ ")"

/-- Callback text for the blocked branch, src/actions/validate.ts lines 107-112. -/
def blockedMsg (b : ValidationResult) : String :=
  "🚨 **Transaction Blocked**\n\n" ++
    "**Reason:** " ++ jsStr b.reason ++ "\n" ++
    "**Validation ID:** `" ++ jsStr b.validationId ++ "`\n" ++
    "**Evidence:** [View](https://proofgate.xyz/evidence/" ++ jsStr b.validationId ++ ")"

/-- Callback text of the catch block, src/actions/validate.ts lines 124-128. -/
def handlerErrMsg (msg : String) : String :=
  "❌ **ProofGate Error:** " ++ msg

/-- validateTransactionAction.handler (src/actions/validate.ts lines 39-131),
as a function of the outcome of `getProofGateConfig` (which throws on invalid
configuration), the handler options and the outcome of the single fetch.
Control flow of the source: config errors and every throw inside the try are
caught and turned into the ❌ callback plus `return false`; missing
transaction fields short-circuit before the fetch; a success body is logged
when debug is on, announced as approved or blocked by its `safe` truthiness,
and the handler then returns `false` when `PROOFGATE_AUTO_BLOCK && !result.safe`
and `result.safe` otherwise. -/
def actionHandler (cfgR : Except String ProofGateEnv) (opts : TxOptions)
    (o : FetchOutcome) : HandlerOutput :=
  match cfgR with
  | .error msg =>
    { result := false, messages := [handlerErrMsg msg], networkCalled := false, logs := [] }
  | .ok cfg =>
    if opts.missingDetails then
      { result := false, messages := [missingDetailsMsg], networkCalled := false, logs := [] }
    else
      match o with
      | .transportFailure msg =>
        { result := false, messages := [handlerErrMsg msg], networkCalled := true, logs := [] }
      | .httpNotOk status body =>
        { result := false, messages := [handlerErrMsg (errMessage status body)]
          networkCalled := true, logs := [] }
      | .okBody b =>
        let logs :=
          if cfg.PROOFGATE_DEBUG then
            [LogEntry.resultLog (jsStr b.validationId) (jsStr b.result) (jsStr b.reason) b.jsSafe]
          else []
        let text := if b.jsSafe then approvedMsg b else blockedMsg b
        let allowed := if cfg.PROOFGATE_AUTO_BLOCK && !b.jsSafe then false else b.jsSafe
        { result := allowed, messages := [text], networkCalled := true, logs := logs }

/-- Callback text of the missing-details branch of the PROOFGATE_VALIDATE
handler in src/index.ts lines 232-234 (the source file carries the emoji as
mojibake, reproduced verbatim). -/
def missingDetailsMsgIdx : String :=
  "‚ö†Ô∏è Transaction details required (from, to, data) for ProofGate validation."

/-- Callback text for the approved branch, src/index.ts lines 248-253. -/
def approvedMsgIdx (b : ValidationResult) : String :=
  "‚úÖ **Transaction Approved**\n\n" ++
    "**Reason:** " ++ jsStr b.reason ++ "\n" ++
    "**Validation ID:** `" ++ jsStr b.validationId ++ "`\n" ++
    "**Evidence:** [View](https://www.proofgate.xyz/evidence/" ++ jsStr b.validationId ++ ")"

/-- Callback text for the blocked branch, src/index.ts lines 255-260. -/
def blockedMsgIdx (b : ValidationResult) : String :=
  "üö® **Transaction Blocked**\n\n" ++
    "**Reason:** " ++ jsStr b.reason ++ "\n" ++
    "**Validation ID:** `" ++ jsStr b.validationId ++ "`\n" ++
    "**Evidence:** [View](https://www.proofgate.xyz/evidence/" ++ jsStr b.validationId ++ ")"

/-- Callback text of the catch block, src/index.ts lines 267-271. -/
def handlerErrMsgIdx (msg : String) : String :=
  "‚ùå **ProofGate Error:** " ++ msg

/-- The PROOFGATE_VALIDATE action handler of the plugin class
(src/index.ts lines 222-274): missing transaction fields short-circuit before
the fetch; otherwise the handler calls `this.validateTransaction` and either
reports the caught error with `return false`, or announces the result by its
`safe` truthiness and returns `result.safe`. -/
def pluginActionHandler (cfg : GateConfig) (opts : TxOptions)
    (o : FetchOutcome) : HandlerOutput :=
  if opts.missingDetails then
    { result := false, messages := [missingDetailsMsgIdx], networkCalled := false, logs := [] }
  else
    let m := validateTransaction cfg o
    match m.ret with
    | .error msg =>
      { result := false, messages := [handlerErrMsgIdx msg], networkCalled := true, logs := m.logs }
    | .ok b =>
      { result := b.jsSafe
        messages := [if b.jsSafe then approvedMsgIdx b else blockedMsgIdx b]
        networkCalled := true, logs := m.logs }

/-- A property of a JavaScript object literal: a key can be entirely absent,
present with value `undefined`, or present with a value. The distinction
matters for object spread, which copies present-but-undefined keys. -/
inductive JsField (α : Type) where
  | absent
  | undef
  | val (a : α)
deriving DecidableEq, Repr

/-- Object spread over one key: `{ key: dflt, ...config }` keeps the default
only when `config` does not own the key at all; a present `undefined`
overwrites the default with `undefined` (modelled as `none`). -/
def spreadField {α : Type} (dflt : α) : JsField α → Option α
  | .absent => some dflt
  | .undef => none
  | .val a => some a

/-- The ProofGateConfig object a caller passes to the constructor: `apiKey`
required, every other key optional and possibly explicitly `undefined`. -/
structure ProofGateConfig where
  apiKey : String
  apiUrl : JsField String
  guardrailId : JsField String
  chainId : JsField Nat
  autoBlock : JsField Bool
  debug : JsField Bool
deriving DecidableEq, Repr

/-- The `this.config` the constructor stores (typed Required<ProofGateConfig>
in the source, but the spread can still leave `undefined` in a field). -/
structure ResolvedPluginConfig where
  apiKey : String
  apiUrl : Option String
  guardrailId : Option String
  chainId : Option Nat
  autoBlock : Option Bool
  debug : Option Bool
deriving DecidableEq, Repr

/-- The assignment at src/index.ts lines 84-91:
`this.config = { apiUrl: ..., guardrailId: '', chainId: 56, autoBlock: true,
debug: false, ...config }`. -/
def resolvePluginConfig (c : ProofGateConfig) : ResolvedPluginConfig :=
  { apiKey := c.apiKey
    apiUrl := spreadField "https://www.proofgate.xyz/api" c.apiUrl
    guardrailId := spreadField "" c.guardrailId
    chainId := spreadField 56 c.chainId
    autoBlock := spreadField true c.autoBlock
    debug := spreadField false c.debug }

/-- The source's `key.startsWith('pg_')` prefix test, embedded over the
character lists of the strings so that it evaluates. -/
def strStartsWith (s p : String) : Bool :=
  p.data.isPrefixOf s.data

/-- The ProofGatePlugin constructor (src/index.ts lines 76-92), including
createProofGatePlugin which merely forwards to it: `!config.apiKey` (false
for the empty string) throws the missing-key error, a key without the "pg_"
prefix throws the format error, and otherwise the spread-resolved config is
stored. `Except.error` is the thrown `Error`'s message. -/
def createProofGatePlugin (c : ProofGateConfig) : Except String ResolvedPluginConfig :=
  if c.apiKey == "" then
    Except.error "[ProofGate] API key is required. Get one at https://www.proofgate.xyz/dashboard"
  else if !(strStartsWith c.apiKey "pg_") then
    Except.error "[ProofGate] Invalid API key format. Keys start with \"pg_\""
  else
    Except.ok (resolvePluginConfig c)

/-- The PROOFGATE_API_KEY field of the zod environment schema
(proofGateEnvSchema): `z.string()` rejects an absent value ("Required"),
`.min(1, 'ProofGate API key is required')` rejects the empty string, and the
`.refine` step rejects keys without the "pg_" prefix. -/
def parseApiKeyEnv : Option String → Except String String
  | none => Except.error "Required"
  | some k =>
    if k.length < 1 then
      Except.error "ProofGate API key is required"
    else if !(strStartsWith k "pg_") then
      Except.error "ProofGate API key must start with \"pg_\""
    else
      Except.ok k

/-- The response payload fields the legacy axios-based plugin variant reads
(`response.data` in that file), including the `safe` flag the upstream may
have sent, which that variant never reads. -/
structure LegacyResponseData where
  result : String
  reason : String
  evidenceURI : String
  safe : Option Bool
deriving DecidableEq, Repr

/-- The ValidationResult type of the legacy axios-based plugin variant. -/
structure LegacyValidationResult where
  result : String
  reason : String
  evidenceURI : String
  safe : Bool
deriving DecidableEq, Repr

/-- The result construction of the legacy axios-based variant's
validateTransaction: `safe: response.data.result === 'PASS'` — `safe` is
recomputed locally from `result` and the upstream's own `safe` is ignored. -/
def legacyMkResult (d : LegacyResponseData) : LegacyValidationResult :=
  { result := d.result
    reason := d.reason
    evidenceURI := d.evidenceURI
    safe := d.result == "PASS" }

/-- Resolved flags with auto-block enabled (the default) and debug off. -/
def autoBlockOn : GateConfig := { autoBlock := true, debug := false }

/-- Resolved flags with auto-block disabled and debug off. -/
def autoBlockOff : GateConfig := { autoBlock := false, debug := false }

/-- A validated environment configuration with auto-block enabled. -/
def envBlock : ProofGateEnv :=
  { PROOFGATE_API_KEY := "pg_live_key"
    PROOFGATE_API_URL := "https://www.proofgate.xyz/api"
    PROOFGATE_GUARDRAIL_ID := none
    PROOFGATE_CHAIN_ID := 8453
    PROOFGATE_AUTO_BLOCK := true
    PROOFGATE_DEBUG := false }

/-- A validated environment configuration with auto-block disabled. -/
def envNoBlock : ProofGateEnv :=
  { envBlock with PROOFGATE_AUTO_BLOCK := false }

/-- Handler options with all three transaction fields present. -/
def fullOpts : TxOptions :=
  { fromAddr := some "0xAA", toAddr := some "0xBB"
    dataHex := some "0x38ed1739", valueStr := some "0" }

/-- Handler options whose call-data field is absent. -/
def noDataOpts : TxOptions :=
  { fromAddr := some "0xAA", toAddr := some "0xBB"
    dataHex := none, valueStr := some "0" }

/-- A well-formed PASS response body (safe consistent with result). -/
def passBody : ValidationResult :=
  { validationId := some "val_1", result := some "PASS", reason := some "within limit"
    evidenceUri := some "u1", safe := some true, authenticated := some true
    tier := some "free" }

/-- A well-formed FAIL response body (safe consistent with result). -/
def failBody : ValidationResult :=
  { validationId := some "val_2", result := some "FAIL"
    reason := some "infinite approval detected", evidenceUri := some "u2"
    safe := some false, authenticated := some true, tier := some "free" }

/-- An inconsistent response body from a hostile or buggy upstream:
`result: "FAIL"` yet `safe: true`. -/
def hostileBody : ValidationResult :=
  { validationId := some "val_3", result := some "FAIL"
    reason := some "exceeds daily limit", evidenceUri := some "u3"
    safe := some true, authenticated := some true, tier := some "free" }

/-- A success response body missing every required field. -/
def emptyBody : ValidationResult :=
  { validationId := none, result := none, reason := none, evidenceUri := none
    safe := none, authenticated := none, tier := none }

/-- The legacy axios-based variant keeps its own invariant: the constructed
result's `safe` equals `result == "PASS"` whatever the upstream sent. -/
theorem legacyMkResult_safe (d : LegacyResponseData) :
    (legacyMkResult d).safe = ((legacyMkResult d).result == "PASS") := rfl

/-- C1: the claim says every ValidationResult the gate returns has
`safe = (result == PASS)`, recomputed locally. The fetch-based plugin
(src/index.ts) does not recompute it: on an upstream body with
`result: "FAIL"` and `safe: true`, validateTransaction — even with
auto-block enabled — returns the body unchanged, so the caller receives
`safe = true` alongside `result = "FAIL"`. -/
theorem c1_safe_not_recomputed :
    (validateTransaction autoBlockOn (FetchOutcome.okBody hostileBody)).ret
        = Except.ok hostileBody
      ∧ hostileBody.result = some "FAIL"
      ∧ hostileBody.safe = some true :=
  ⟨rfl, rfl, rfl⟩

/-- C2 counterexample: with auto-block disabled and a FAIL verdict, the
action handler returns `false`, not `!autoBlock = true`: its final
`return result.safe` makes the decision `false` for every FAIL verdict. -/
theorem c2_counterexample :
    (actionHandler (Except.ok envNoBlock) fullOpts
        (FetchOutcome.okBody failBody)).result = false
      ∧ envNoBlock.PROOFGATE_AUTO_BLOCK = false
      ∧ failBody.result = some "FAIL" :=
  ⟨rfl, rfl, rfl⟩

/-- C2 (amended): for a FAIL verdict, the plugin method validateTransaction
throws exactly when auto-block is enabled, and with auto-block disabled it
returns the full ValidationResult (still carrying `safe = false`) — there the
decision is `allowed = !autoBlock`; the action handler, however, returns
`false` for a FAIL verdict regardless of the auto-block setting, because it
ends with `return result.safe`. -/
theorem c2_fail_decision (cfg : GateConfig) (env : ProofGateEnv)
    (opts : TxOptions) (b : ValidationResult)
    (_hres : b.result = some "FAIL") (hsafe : b.safe = some false) :
    (cfg.autoBlock = true →
      (validateTransaction cfg (FetchOutcome.okBody b)).ret
        = Except.error (blockedErrMsg b))
    ∧ (cfg.autoBlock = false →
        (validateTransaction cfg (FetchOutcome.okBody b)).ret = Except.ok b)
    ∧ (actionHandler (Except.ok env) opts (FetchOutcome.okBody b)).result = false := by
  have hjs : b.jsSafe = false := by
    simp [ValidationResult.jsSafe, jsTruthyBool, hsafe]
  refine ⟨fun hab => ?_, fun hab => ?_, ?_⟩
  · simp [validateTransaction, hjs, hab]
  · simp [validateTransaction, hjs, hab]
  · unfold actionHandler
    cases h : opts.missingDetails <;> simp [h, hjs]

/-- C2 witness: the amended claim evaluated on a concrete FAIL body under
both auto-block settings. -/
theorem c2_fail_decision_witness :
    (validateTransaction autoBlockOn (FetchOutcome.okBody failBody)).ret
        = Except.error (blockedErrMsg failBody)
      ∧ (validateTransaction autoBlockOff (FetchOutcome.okBody failBody)).ret
        = Except.ok failBody
      ∧ (actionHandler (Except.ok envNoBlock) fullOpts
          (FetchOutcome.okBody failBody)).result = false :=
  ⟨(c2_fail_decision autoBlockOn envNoBlock fullOpts failBody rfl rfl).1 rfl,
   (c2_fail_decision autoBlockOff envNoBlock fullOpts failBody rfl rfl).2.1 rfl,
   (c2_fail_decision autoBlockOff envNoBlock fullOpts failBody rfl rfl).2.2⟩

/-- C3: every error path —  invalid configuration, transport failure, or a
non-success HTTP status — yields the decision `false` in both action
handlers, whatever the auto-block setting; the plugin method likewise
rethrows (never approves) on a transport failure or HTTP error. The gate
fails closed: no error path yields approval. -/
theorem c3_fail_closed :
    (∀ (msg : String) (opts : TxOptions) (o : FetchOutcome),
        (actionHandler (Except.error msg) opts o).result = false)
    ∧ (∀ (env : ProofGateEnv) (opts : TxOptions) (m : String),
        (actionHandler (Except.ok env) opts (FetchOutcome.transportFailure m)).result = false)
    ∧ (∀ (env : ProofGateEnv) (opts : TxOptions) (s : Nat) (eb : Option ErrorBody),
        (actionHandler (Except.ok env) opts (FetchOutcome.httpNotOk s eb)).result = false)
    ∧ (∀ (cfg : GateConfig) (opts : TxOptions) (m : String),
        (pluginActionHandler cfg opts (FetchOutcome.transportFailure m)).result = false)
    ∧ (∀ (cfg : GateConfig) (opts : TxOptions) (s : Nat) (eb : Option ErrorBody),
        (pluginActionHandler cfg opts (FetchOutcome.httpNotOk s eb)).result = false)
    ∧ (∀ (cfg : GateConfig) (m : String),
        (validateTransaction cfg (FetchOutcome.transportFailure m)).ret = Except.error m)
    ∧ (∀ (cfg : GateConfig) (s : Nat) (eb : Option ErrorBody),
        (validateTransaction cfg (FetchOutcome.httpNotOk s eb)).ret
          = Except.error (errMessage s eb)) := by
  refine ⟨fun msg opts o => rfl, fun env opts m => ?_, fun env opts s eb => ?_,
          fun cfg opts m => ?_, fun cfg opts s eb => ?_,
          fun cfg m => rfl, fun cfg s eb => rfl⟩
  · unfold actionHandler
    cases h : opts.missingDetails <;> simp [h]
  · unfold actionHandler
    cases h : opts.missingDetails <;> simp [h]
  · unfold pluginActionHandler
    cases h : opts.missingDetails <;> simp [h, validateTransaction]
  · unfold pluginActionHandler
    cases h : opts.missingDetails <;> simp [h, validateTransaction]

/-- C4: when any of the sender, recipient, or call-data fields is absent,
both action handlers deny locally with the missing-details message and never
contact the remote service, whatever the fetch would have returned. -/
theorem c4_missing_details (env : ProofGateEnv) (cfg : GateConfig)
    (opts : TxOptions) (o : FetchOutcome)
    (h : opts.fromAddr = none ∨ opts.toAddr = none ∨ opts.dataHex = none) :
    actionHandler (Except.ok env) opts o =
      { result := false, messages := [missingDetailsMsg]
        networkCalled := false, logs := [] }
    ∧ pluginActionHandler cfg opts o =
      { result := false, messages := [missingDetailsMsgIdx]
        networkCalled := false, logs := [] } := by
  have hm : opts.missingDetails = true := by
    rcases h with h | h | h <;> simp [TxOptions.missingDetails, jsTruthyStr, h]
  constructor
  · unfold actionHandler
    simp [hm]
  · unfold pluginActionHandler
    simp [hm]

/-- C4 witness: a request whose `data` field is absent is denied with the
missing-details message and no network call, in both handlers. -/
theorem c4_missing_details_witness :
    actionHandler (Except.ok envBlock) noDataOpts (FetchOutcome.okBody passBody) =
      { result := false, messages := [missingDetailsMsg]
        networkCalled := false, logs := [] }
    ∧ pluginActionHandler autoBlockOn noDataOpts (FetchOutcome.okBody passBody) =
      { result := false, messages := [missingDetailsMsgIdx]
        networkCalled := false, logs := [] } :=
  c4_missing_details envBlock autoBlockOn noDataOpts (FetchOutcome.okBody passBody)
    (Or.inr (Or.inr rfl))

/-- C5 counterexample: a success response body missing every required field
(validationId, result, reason, evidenceUri, authenticated, tier) is not
rejected as malformed: with auto-block disabled, validateTransaction returns
it as a ValidationResult. The code performs no runtime field validation and
has no MalformedResponse failure. -/
theorem c5_counterexample :
    (validateTransaction autoBlockOff (FetchOutcome.okBody emptyBody)).ret
        = Except.ok emptyBody
      ∧ emptyBody.validationId = none ∧ emptyBody.result = none
      ∧ emptyBody.reason = none ∧ emptyBody.evidenceUri = none
      ∧ emptyBody.authenticated = none ∧ emptyBody.tier = none :=
  ⟨rfl, rfl, rfl, rfl, rfl, rfl, rfl⟩

/-- C5 (amended): a success response body is used as-is without any field
validation. With auto-block disabled, every body — however incomplete — is
returned as the ValidationResult; with auto-block enabled, a body whose
`safe` field is absent is treated as unsafe and blocked with the
transaction-blocked message (whose reason reads "undefined" when the
`reason` field is also absent). No MalformedResponse error exists. -/
theorem c5_no_field_validation (cfg : GateConfig) (b : ValidationResult) :
    (cfg.autoBlock = false →
      (validateTransaction cfg (FetchOutcome.okBody b)).ret = Except.ok b)
    ∧ (cfg.autoBlock = true → b.safe = none →
        (validateTransaction cfg (FetchOutcome.okBody b)).ret
          = Except.error (blockedErrMsg b)) := by
  constructor
  · intro hab
    simp [validateTransaction, hab]
  · intro hab hsafe
    simp [validateTransaction, hab, ValidationResult.jsSafe, jsTruthyBool, hsafe]

/-- C5 witness: the amended claim evaluated on the all-fields-absent body
under both auto-block settings. -/
theorem c5_no_field_validation_witness :
    (validateTransaction autoBlockOff (FetchOutcome.okBody emptyBody)).ret
        = Except.ok emptyBody
      ∧ (validateTransaction autoBlockOn (FetchOutcome.okBody emptyBody)).ret
        = Except.error (blockedErrMsg emptyBody) :=
  ⟨(c5_no_field_validation autoBlockOff emptyBody).1 rfl,
   (c5_no_field_validation autoBlockOn emptyBody).2 rfl rfl⟩

/-- C6: a PASS verdict (with its safety flag consistent, `safe = true`) is
never blocked: the plugin method returns the result without throwing and
both action handlers decide `true`, whatever the auto-block setting. -/
theorem c6_pass_allowed (cfg : GateConfig) (env : ProofGateEnv)
    (opts : TxOptions) (b : ValidationResult)
    (_hres : b.result = some "PASS") (hsafe : b.safe = some true)
    (hopts : opts.missingDetails = false) :
    (validateTransaction cfg (FetchOutcome.okBody b)).ret = Except.ok b
    ∧ (actionHandler (Except.ok env) opts (FetchOutcome.okBody b)).result = true
    ∧ (pluginActionHandler cfg opts (FetchOutcome.okBody b)).result = true := by
  have hjs : b.jsSafe = true := by
    simp [ValidationResult.jsSafe, jsTruthyBool, hsafe]
  refine ⟨?_, ?_, ?_⟩
  · simp [validateTransaction, hjs]
  · unfold actionHandler
    simp [hopts, hjs]
  · unfold pluginActionHandler
    simp [hopts, validateTransaction, hjs]

/-- C6 witness: a concrete PASS body is allowed under both auto-block
settings, by the method and by the handlers. -/
theorem c6_pass_allowed_witness :
    (validateTransaction autoBlockOn (FetchOutcome.okBody passBody)).ret
        = Except.ok passBody
      ∧ (validateTransaction autoBlockOff (FetchOutcome.okBody passBody)).ret
        = Except.ok passBody
      ∧ (actionHandler (Except.ok envBlock) fullOpts
          (FetchOutcome.okBody passBody)).result = true
      ∧ (pluginActionHandler autoBlockOn fullOpts
          (FetchOutcome.okBody passBody)).result = true :=
  ⟨(c6_pass_allowed autoBlockOn envBlock fullOpts passBody rfl rfl rfl).1,
   (c6_pass_allowed autoBlockOff envBlock fullOpts passBody rfl rfl rfl).1,
   (c6_pass_allowed autoBlockOn envBlock fullOpts passBody rfl rfl rfl).2.1,
   (c6_pass_allowed autoBlockOn envBlock fullOpts passBody rfl rfl rfl).2.2⟩

/-- C7 counterexample: when the error body of a non-success response cannot
be parsed, the failure message is the fixed string "Unknown error" coming
from the `.catch(() => ({ error: 'Unknown error' }))` fallback — not the
status-code-only message the claim predicts. -/
theorem c7_counterexample :
    errMessage 500 none = "Unknown error" ∧ errMessage 500 none ≠ "HTTP 500" :=
  ⟨rfl, by decide⟩

/-- C7 (amended): on a non-success HTTP status the validation call fails with
the message computed from the error body: the body's `error` field when
nonempty, else its `message` field when nonempty, else the status-code-only
message "HTTP {status}"; an unparseable error body does not raise a secondary
parse failure but produces the fixed message "Unknown error" (not the
status-code message). -/
theorem c7_upstream_message (cfg : GateConfig) (status : Nat)
    (ebo : Option ErrorBody) (e m : String) :
    (validateTransaction cfg (FetchOutcome.httpNotOk status ebo)).ret
        = Except.error (errMessage status ebo)
    ∧ errMessage status none = "Unknown error"
    ∧ errMessage status (some { error := none, message := none })
        = "HTTP " ++ toString status
    ∧ errMessage status (some { error := some e, message := some m })
        = (if e == "" then (if m == "" then "HTTP " ++ toString status else m) else e)
    ∧ errMessage status (some { error := none, message := some m })
        = (if m == "" then "HTTP " ++ toString status else m) := by
  refine ⟨rfl, rfl, rfl, ?_, ?_⟩
  · cases he : e == "" <;> cases hm : m == "" <;>
      simp [errMessage, jsOrStr, he, hm]
  · cases hm : m == "" <;> simp [errMessage, jsOrStr, hm]

/-- A nonempty string has positive length (used for the credential checks). -/
theorem string_nonempty_length (k : String) (h : k ≠ "") : ¬ k.length < 1 := by
  intro hlt
  apply h
  have h0 : k.length = 0 := Nat.lt_one_iff.mp hlt
  cases k with
  | mk l =>
    cases l with
    | nil => rfl
    | cons c cs => simp [String.length] at h0

/-- C8: construction fails on a bad credential: the plugin constructor
throws the missing-key error when the key is empty and the format error when
it lacks the "pg_" prefix (so no resolved configuration is ever produced and
no validation call is possible); the environment schema likewise rejects an
absent key, an empty key, and a key without the "pg_" prefix. -/
theorem c8_credential_checks (c : ProofGateConfig) (k : String) :
    (c.apiKey = "" → createProofGatePlugin c = Except.error
        "[ProofGate] API key is required. Get one at https://www.proofgate.xyz/dashboard")
    ∧ (c.apiKey ≠ "" → strStartsWith c.apiKey "pg_" = false →
        createProofGatePlugin c = Except.error
          "[ProofGate] Invalid API key format. Keys start with \"pg_\"")
    ∧ parseApiKeyEnv none = Except.error "Required"
    ∧ parseApiKeyEnv (some "") = Except.error "ProofGate API key is required"
    ∧ (k ≠ "" → strStartsWith k "pg_" = false → parseApiKeyEnv (some k)
        = Except.error "ProofGate API key must start with \"pg_\"") := by
  refine ⟨?_, ?_, rfl, rfl, ?_⟩
  · intro h
    simp [createProofGatePlugin, h]
  · intro h hp
    have hne : (c.apiKey == "") = false := by
      simp [h]
    simp [createProofGatePlugin, hne, hp]
  · intro h hp
    have hlen := string_nonempty_length k h
    simp [parseApiKeyEnv, hlen, hp]

/-- A caller config whose credential is the empty string. -/
def cfgEmptyKey : ProofGateConfig :=
  { apiKey := "", apiUrl := JsField.absent, guardrailId := JsField.absent
    chainId := JsField.absent, autoBlock := JsField.absent, debug := JsField.absent }

/-- A caller config whose credential lacks the required "pg_" prefix. -/
def cfgBadKey : ProofGateConfig :=
  { cfgEmptyKey with apiKey := "sk_12345" }

/-- C8 witness: the credential checks evaluated on an empty key, a key with
the wrong prefix, and the corresponding environment values. -/
theorem c8_credential_checks_witness :
    createProofGatePlugin cfgEmptyKey = Except.error
        "[ProofGate] API key is required. Get one at https://www.proofgate.xyz/dashboard"
      ∧ createProofGatePlugin cfgBadKey = Except.error
        "[ProofGate] Invalid API key format. Keys start with \"pg_\""
      ∧ parseApiKeyEnv none = Except.error "Required"
      ∧ parseApiKeyEnv (some "sk_12345") = Except.error
        "ProofGate API key must start with \"pg_\"" :=
  ⟨(c8_credential_checks cfgEmptyKey "sk_12345").1 rfl,
   (c8_credential_checks cfgBadKey "sk_12345").2.1 (by decide) (by decide),
   (c8_credential_checks cfgBadKey "sk_12345").2.2.1,
   (c8_credential_checks cfgBadKey "sk_12345").2.2.2.2 (by decide) (by decide)⟩

/-- C9: flipping only the debug flag never changes the visible outcome — the
plugin method's returned (or thrown) value, and each handler's decision and
callback texts, are identical; debug only adds log records. -/
theorem c9_debug_transparent (cfg : GateConfig) (env : ProofGateEnv)
    (opts : TxOptions) (o : FetchOutcome) (d : Bool) :
    (validateTransaction { cfg with debug := d } o).ret
        = (validateTransaction cfg o).ret
    ∧ (actionHandler (Except.ok { env with PROOFGATE_DEBUG := d }) opts o).result
        = (actionHandler (Except.ok env) opts o).result
    ∧ (actionHandler (Except.ok { env with PROOFGATE_DEBUG := d }) opts o).messages
        = (actionHandler (Except.ok env) opts o).messages
    ∧ (pluginActionHandler { cfg with debug := d } opts o).result
        = (pluginActionHandler cfg opts o).result := by
  refine ⟨?_, ?_, ?_, ?_⟩
  · cases o with
    | transportFailure m => rfl
    | httpNotOk s eb => rfl
    | okBody b =>
      cases hc : cfg.autoBlock && !b.jsSafe <;>
        simp [validateTransaction, hc]
  · cases o <;> cases h : opts.missingDetails <;> simp [actionHandler, h]
  · cases o <;> cases h : opts.missingDetails <;> simp [actionHandler, h]
  · cases o with
    | transportFailure m =>
      cases h : opts.missingDetails <;> simp [pluginActionHandler, validateTransaction, h]
    | httpNotOk s eb =>
      cases h : opts.missingDetails <;> simp [pluginActionHandler, validateTransaction, h]
    | okBody b =>
      cases h : opts.missingDetails <;>
        cases hc : cfg.autoBlock && !b.jsSafe <;>
          simp [pluginActionHandler, validateTransaction, h, hc]

/-- C10: object spread after the defaults means a key present with value
`undefined` overwrites the default with `undefined` in the stored config,
while the defaults (canonical URL, empty guardrail id, chain 56, auto-block
on, debug off) apply exactly to the keys entirely absent from the supplied
object. -/
theorem c10_spread_undefined (u a : ProofGateConfig)
    (h1 : u.apiUrl = JsField.undef) (h2 : u.guardrailId = JsField.undef)
    (h3 : u.chainId = JsField.undef) (h4 : u.autoBlock = JsField.undef)
    (h5 : u.debug = JsField.undef)
    (g1 : a.apiUrl = JsField.absent) (g2 : a.guardrailId = JsField.absent)
    (g3 : a.chainId = JsField.absent) (g4 : a.autoBlock = JsField.absent)
    (g5 : a.debug = JsField.absent) :
    resolvePluginConfig u =
      { apiKey := u.apiKey, apiUrl := none, guardrailId := none
        chainId := none, autoBlock := none, debug := none }
    ∧ resolvePluginConfig a =
      { apiKey := a.apiKey, apiUrl := some "https://www.proofgate.xyz/api"
        guardrailId := some "", chainId := some 56
        autoBlock := some true, debug := some false } := by
  constructor
  · simp [resolvePluginConfig, spreadField, h1, h2, h3, h4, h5]
  · simp [resolvePluginConfig, spreadField, g1, g2, g3, g4, g5]

/-- A caller config with every optional key explicitly `undefined`. -/
def cfgAllUndef : ProofGateConfig :=
  { apiKey := "pg_live_key", apiUrl := JsField.undef, guardrailId := JsField.undef
    chainId := JsField.undef, autoBlock := JsField.undef, debug := JsField.undef }

/-- A caller config with every optional key entirely absent. -/
def cfgAllAbsent : ProofGateConfig :=
  { apiKey := "pg_live_key", apiUrl := JsField.absent, guardrailId := JsField.absent
    chainId := JsField.absent, autoBlock := JsField.absent, debug := JsField.absent }

/-- C10 witness: explicit-`undefined` keys resolve to `undefined`, absent
keys resolve to the documented defaults. -/
theorem c10_spread_undefined_witness :
    resolvePluginConfig cfgAllUndef =
      { apiKey := "pg_live_key", apiUrl := none, guardrailId := none
        chainId := none, autoBlock := none, debug := none }
    ∧ resolvePluginConfig cfgAllAbsent =
      { apiKey := "pg_live_key", apiUrl := some "https://www.proofgate.xyz/api"
        guardrailId := some "", chainId := some 56
        autoBlock := some true, debug := some false } :=
  c10_spread_undefined cfgAllUndef cfgAllAbsent
    rfl rfl rfl rfl rfl rfl rfl rfl rfl rfl

end ProofGate
